import Mathlib

/-!
Shallow embedding of the build-operations façade of `mcp_server/libs/jenkins_api.py`
(class `JenkinsApi`).  Remote calls (`get_job_info`, `get_build_info`,
`get_build_console_output`, `enable_job`, `stop_build`, `get_all_jobs`) are modelled by
passing their results in as explicit parameters; side-effecting commands are modelled by
returning the list of commands issued.  Regular-expression matching is modelled
abstractly: a compiled pattern is a predicate `String → Bool`, and `re.compile` is an
oracle `String → Option (String → Bool)` (`none` models a malformed pattern, which the
source skips with a warning).  Python `str.splitlines` (over `\n`), `str.strip`,
`str.startswith` and substring containment are re-implemented on character lists.
-/

set_option autoImplicit false
set_option linter.unusedVariables false

namespace JenkinsApi

/-- Python `str.splitlines` restricted to `\n` terminators: accumulate characters of the
current line (reversed) and emit it at each newline; a final unterminated non-empty line
is emitted, a trailing newline does not produce an empty final line. -/
def pySplitlinesGo : List Char → List Char → List String
  | [], pending => if pending.isEmpty then [] else [String.mk pending.reverse]
  | c :: rest, pending =>
    if c == '\n' then String.mk pending.reverse :: pySplitlinesGo rest []
    else pySplitlinesGo rest (c :: pending)

/-- Python `s.splitlines()` as used throughout the source (console text uses `\n`). -/
def pySplitlines (s : String) : List String :=
  pySplitlinesGo s.data []

/-- Whether the second list is an initial segment of the first (character-wise). -/
def charsStartWith : List Char → List Char → Bool
  | _, [] => true
  | [], _ :: _ => false
  | a :: as, b :: bs => a == b && charsStartWith as bs

/-- Python `s.startswith(p)`. -/
def pyStartsWith (s p : String) : Bool :=
  charsStartWith s.data p.data

/-- Python `s.endswith(p)`. -/
def pyEndsWith (s p : String) : Bool :=
  charsStartWith s.data.reverse p.data.reverse

/-- Whether the pattern list occurs as a contiguous sublist: it starts at the current
position, or occurs further right. -/
def subOccurs : List Char → List Char → Bool
  | [], pat => charsStartWith [] pat
  | c :: t, pat => charsStartWith (c :: t) pat || subOccurs t pat

/-- Python `p in s` (substring containment). -/
def pyContainsStr (s p : String) : Bool :=
  subOccurs s.data p.data

/-- Python `c in s` for a single character. -/
def pyContainsChar (s : String) (c : Char) : Bool :=
  s.data.any (· == c)

/-- Python `s.strip(c)` for a single strip character: drop it from both ends. -/
def stripChar (c : Char) (s : String) : String :=
  String.mk (((s.data.dropWhile (· == c)).reverse.dropWhile (· == c)).reverse)

/-- The error taxonomy of the source: Python `ValueError` plus the `JenkinsApiError`
exception hierarchy (`JenkinsConnectionError`, `JenkinsJobNotFoundError`,
`JenkinsJobExecutionError`, `JenkinsBuildNotFoundError`). -/
inductive FacadeError where
  | valueError (msg : String)
  | jenkinsConnectionError (msg : String)
  | jenkinsJobNotFound (msg : String)
  | jenkinsJobExecutionError (msg : String)
  | jenkinsBuildNotFound (msg : String)
  | jenkinsApiError (msg : String)
deriving DecidableEq

/-- Result of the remote `get_job_info` call, restricted to the fields the façade
reads: the `lastBuild.number` pointer and the `buildable` flag (each may be absent). -/
structure JobInfo where
  lastBuild : Option Nat
  buildable : Option Bool
deriving DecidableEq

/-- Result of the remote `get_build_info` call, restricted to the fields read by the
façade: `result` (absent while running), `building`, `duration`, `url`. -/
structure BuildInfo where
  result : Option String
  building : Bool
  duration : Int
  url : String
deriving DecidableEq

/-- Commands the façade issues to the remote service (side effects). -/
inductive RemoteCommand where
  | stopBuild (jobName : String) (buildNumber : Nat)
  | enableJob (jobName : String)
  | disableJob (jobName : String)
deriving DecidableEq

/-- The shared build-number resolution step: an explicit `build_number` is used as-is;
otherwise the job's `lastBuild` pointer is used, and if absent the operation raises
`JenkinsBuildNotFoundError("No builds found for job '<job>'")`.  This mirrors the
identical inline blocks in `wait_for_build`, `cancel_build`, `get_build_parameters`
and `monitor_build`. -/
def resolveBuildNumber (jobName : String) (buildNumber : Option Nat) (jobInfo : JobInfo) :
    Except FacadeError Nat :=
  match buildNumber with
  | some b => .ok b
  | none =>
    match jobInfo.lastBuild with
    | some n => .ok n
    | none => .error (.jenkinsBuildNotFound ("No builds found for job \x27" ++ jobName ++ "\x27"))

/-! ### Error-pattern classifier (`get_build_errors`) -/

/-- `DEFAULT_ERROR_PATTERNS` from the source: dictionary order is priority order. -/
def DEFAULT_ERROR_PATTERNS : List (String × List String) :=
  [("error", ["(?i)\\berror\\b", "\\[ERROR\\]"]),
   ("exception",
    ["(?i)\\bexception\\b",
     "(?i)traceback \\(most recent call last\\)",
     "(?i)^\\s+at\\s+[\\w.$]+\\([\\w.]+:\\d+\\)"]),
   ("failure", ["(?i)\\bfailed\\b", "(?i)\\bfailure\\b"]),
   ("jenkins",
    ["Build step \x27.+\x27 marked build as failure",
     "Finished: FAILURE",
     "Finished: ABORTED",
     "(?i)fatal:"])]

/-- One matched error line: `{line_number (1-based), line, category}`. -/
structure ErrorMatch where
  line_number : Nat
  line : String
  category : String
deriving DecidableEq

/-- The value returned by `get_build_errors`: the error list and the per-category
summary.  The summary is a Python dict with string keys, modelled as an insertion-order
association list with unique keys. -/
structure ClassifyResult where
  errors : List ErrorMatch
  summary : List (String × Nat)
deriving DecidableEq

/-- `summary[category] = summary.get(category, 0) + 1` on a Python dict: update the
existing entry in place, or append a new one. -/
def bumpSummary : List (String × Nat) → String → List (String × Nat)
  | [], c => [(c, 1)]
  | (k, n) :: rest, c =>
    if k = c then (k, n + 1) :: rest else (k, n) :: bumpSummary rest c

/-- `summary.get(category, 0)`. -/
def lookupSummary : List (String × Nat) → String → Nat
  | [], _ => 0
  | (k, n) :: rest, c => if k = c then n else lookupSummary rest c

/-- `sum(summary.values())`. -/
def sumSummary : List (String × Nat) → Nat
  | [] => 0
  | (_, n) :: rest => n + sumSummary rest

/-- The inner pattern loop of `get_build_errors`: `for compiled_pattern in
compiled_list: if compiled_pattern.search(line): ... break`, i.e. whether any compiled
pattern of the category matches the line. -/
def anyMatches : List (String → Bool) → String → Bool
  | [], _ => false
  | m :: rest, line => if m line then true else anyMatches rest line

/-- The outer category loop for one line (the `for ... else ... break` construct): the
first category (in priority order) with a matching pattern records one `ErrorMatch` and
bumps the summary; later categories are not evaluated. -/
def recordLine (compiled : List (String × List (String → Bool))) (lineNumber : Nat)
    (line : String) (acc : List ErrorMatch × List (String × Nat)) :
    List ErrorMatch × List (String × Nat) :=
  match compiled with
  | [] => acc
  | (cat, pats) :: rest =>
    if anyMatches pats line then
      (acc.1 ++ [⟨lineNumber, line, cat⟩], bumpSummary acc.2 cat)
    else recordLine rest lineNumber line acc

/-- `for line_number, line in enumerate(lines, start=1): ...` -/
def classifyGo (compiled : List (String × List (String → Bool))) :
    Nat → List String → List ErrorMatch × List (String × Nat) →
    List ErrorMatch × List (String × Nat)
  | _, [], acc => acc
  | n, line :: rest, acc => classifyGo compiled (n + 1) rest (recordLine compiled n line acc)

/-- The whole classification pass of `get_build_errors` over the console lines. -/
def runClassifier (compiled : List (String × List (String → Bool))) (lines : List String) :
    ClassifyResult :=
  let r := classifyGo compiled 1 lines ([], [])
  ⟨r.1, r.2⟩

/-- The pattern dictionary chosen by `get_build_errors`: `if patterns:` — a non-empty
caller list goes under the single `custom` category, while `None` and the empty list
both fall back to `DEFAULT_ERROR_PATTERNS` (Python truthiness). -/
def choosePatternDict (patterns : Option (List String)) : List (String × List String) :=
  match patterns with
  | some (p :: ps) => [("custom", p :: ps)]
  | _ => DEFAULT_ERROR_PATTERNS

/-- Compilation of the pattern dictionary: each pattern string is compiled by the
oracle; malformed patterns (`none`) are skipped, the category is kept. -/
def compilePatternDict (compile : String → Option (String → Bool))
    (patternDict : List (String × List String)) : List (String × List (String → Bool)) :=
  patternDict.map (fun p => (p.1, p.2.filterMap compile))

/-- `get_build_errors` after the console text has been obtained from
`get_job_console` (whose returned string is passed in as `console`): the two sentinel
checks on the returned text, then pattern-dictionary choice, compilation and the
line-by-line classification. -/
def get_build_errors (jobName : String) (console : String)
    (patterns : Option (List String)) (compile : String → Option (String → Bool)) :
    Except FacadeError ClassifyResult :=
  if pyStartsWith console "No builds found for job" then
    .error (.jenkinsBuildNotFound console)
  else if pyContainsStr console "Jenkins error" || pyContainsStr console "Unexpected error" then
    .error (.jenkinsApiError console)
  else
    let compiled := compilePatternDict compile (choosePatternDict patterns)
    .ok (runClassifier compiled (pySplitlines console))

/-! ### Console retrieval with windowing (`get_job_console`) -/

/-- The tail/head windowing block of `get_job_console`: when either option is supplied,
split into lines, keep `lines[-tail:]` (respectively `lines[:head]`), and re-join with
newlines; otherwise return the console unchanged. -/
def applyWindow (console : String) (tail he : Option Int) : String :=
  if tail.isSome || he.isSome then
    let lines := pySplitlines console
    let lines :=
      match tail with
      | some t => lines.drop (lines.length - t.toNat)
      | none =>
        match he with
        | some h => lines.take h.toNat
        | none => lines
    String.intercalate "\n" lines
  else console

/-- `get_job_console`.  Validation happens before the `try` block (and hence before any
remote call): supplying both `tail` and `head` raises `ValueError`, as does a
non-positive supplied value.  When `build_number` is absent and the job has no
`lastBuild`, the function RETURNS the message `"No builds found for job '<job>'"` as an
ordinary string (it does not raise).  Otherwise the fetched console text (passed in as
`console`) is windowed and returned.  A raised error is `.error`, an ordinary string
return is `.ok`. -/
def get_job_console (jobName : String) (buildNumber : Option Nat)
    (tail he : Option Int) (jobInfo : JobInfo) (console : String) :
    Except FacadeError String :=
  if tail.isSome && he.isSome then
    .error (.valueError "tail and head are mutually exclusive; provide only one")
  else if (match tail with | some t => decide (t ≤ 0) | none => false) then
    .error (.valueError "tail must be a positive integer")
  else if (match he with | some h => decide (h ≤ 0) | none => false) then
    .error (.valueError "head must be a positive integer")
  else
    match buildNumber, jobInfo.lastBuild with
    | none, none => .ok ("No builds found for job \x27" ++ jobName ++ "\x27")
    | _, _ => .ok (applyWindow console tail he)

/-! ### Incremental monitoring (`monitor_build`) -/

/-- The value returned by `monitor_build`. -/
structure MonitorResult where
  job_name : String
  build_number : Nat
  output : String
  next_line : Nat
  building : Bool
  result : Option String
deriving DecidableEq

/-- `monitor_build`: validate `from_line >= 0`, resolve the build number, read the
build status (`building`, `result`) from the fetched build metadata, split the fetched
console into lines and return the slice `lines[from_line:]` joined with newlines,
with `next_line` always the current total line count. -/
def monitor_build (jobName : String) (buildNumber : Option Nat) (jobInfo : JobInfo)
    (buildInfo : BuildInfo) (console : String) (from_line : Int) :
    Except FacadeError MonitorResult :=
  if from_line < 0 then .error (.valueError "from_line must be non-negative (>= 0)")
  else
    match resolveBuildNumber jobName buildNumber jobInfo with
    | .error e => .error e
    | .ok bn =>
      let lines := pySplitlines console
      let totalLines := lines.length
      let outputLines :=
        if (totalLines : Int) ≤ from_line then [] else lines.drop from_line.toNat
      .ok ⟨jobName, bn, String.intercalate "\n" outputLines, totalLines,
           buildInfo.building, buildInfo.result⟩

/-! ### Blocking wait loop (`wait_for_build`) -/

/-- Outcome of `wait_for_build`.  `raised` covers validation errors, resolution errors
and the timeout (a `JenkinsApiError`); `completed` is the dict returned on a terminal
result; `exhausted` means the scripted list of remote status responses ran out while
the build was still in progress (the real loop would keep polling). -/
inductive WaitOutcome where
  | raised (e : FacadeError)
  | completed (build_number : Nat) (result : String) (duration : Int) (url : String)
  | exhausted
deriving DecidableEq

/-- The polling loop of `wait_for_build`.  Wall-clock time is modelled as advancing
only in `time.sleep(poll_interval)` (remote calls are instantaneous), so at the check
of iteration `k` the elapsed time is `k * poll`.  The timeout test happens before the
status fetch; a present `result` returns the terminal snapshot; otherwise the loop
sleeps and re-polls with the next scripted status. -/
def waitLoop (jobName : String) (bn : Nat) (timeout poll : Int) :
    Nat → List BuildInfo → WaitOutcome
  | k, statuses =>
    if timeout ≤ (k : Int) * poll then
      .raised (.jenkinsApiError
        ("Timeout waiting for build \x27" ++ jobName ++ "#" ++ toString bn ++ "\x27 after "
          ++ toString timeout ++ " seconds"))
    else
      match statuses with
      | [] => .exhausted
      | info :: rest =>
        match info.result with
        | some r => .completed bn r info.duration info.url
        | none => waitLoop jobName bn timeout poll (k + 1) rest

/-- `wait_for_build`: validate `timeout > 0` and `poll_interval > 0` (else
`ValueError`), clamp `poll_interval` to `timeout` when it exceeds it, resolve the build
number, then run the polling loop against the scripted status responses. -/
def wait_for_build (jobName : String) (buildNumber : Option Nat)
    (timeout poll_interval : Int) (jobInfo : JobInfo) (statuses : List BuildInfo) :
    WaitOutcome :=
  if timeout ≤ 0 then .raised (.valueError "timeout must be positive (> 0)")
  else if poll_interval ≤ 0 then .raised (.valueError "poll_interval must be positive (> 0)")
  else
    let poll := if timeout < poll_interval then timeout else poll_interval
    match resolveBuildNumber jobName buildNumber jobInfo with
    | .error e => .raised e
    | .ok bn => waitLoop jobName bn timeout poll 0 statuses

/-! ### Cancel, enable/disable (`cancel_build`, `enable_job_state`, `disable_job_state`) -/

/-- The value returned by `cancel_build`. -/
structure CancelResult where
  success : Bool
  job_name : String
  build_number : Nat
  message : String
deriving DecidableEq

/-- `cancel_build`: resolve the build number, fetch the build status; when `result` is
already present return `success=False` with the completion message and issue no remote
command; when absent issue `stop_build` and return `success=True`.  The first component
lists the remote commands issued. -/
def cancel_build (jobName : String) (buildNumber : Option Nat) (jobInfo : JobInfo)
    (buildInfo : BuildInfo) : Except FacadeError (List RemoteCommand × CancelResult) :=
  match resolveBuildNumber jobName buildNumber jobInfo with
  | .error e => .error e
  | .ok bn =>
    match buildInfo.result with
    | some r =>
      .ok ([], ⟨false, jobName, bn, "Build already completed with result: " ++ r⟩)
    | none =>
      .ok ([.stopBuild jobName bn], ⟨true, jobName, bn, "Build cancelled successfully"⟩)

/-- The value returned by `enable_job_state` / `disable_job_state`. -/
structure StateResult where
  success : Bool
  job_name : String
  enabled : Bool
deriving DecidableEq

/-- `enable_job_state`: issue `enable_job`, then report the re-fetched metadata's
`job_info.get("buildable", False)` as `enabled`.  `refetched` is the metadata fetched
after the command. -/
def enable_job_state (jobName : String) (refetched : JobInfo) :
    List RemoteCommand × StateResult :=
  ([.enableJob jobName], ⟨true, jobName, refetched.buildable.getD false⟩)

/-- `disable_job_state`: issue `disable_job`, then report the re-fetched metadata's
`job_info.get("buildable", True)` as `enabled`. -/
def disable_job_state (jobName : String) (refetched : JobInfo) :
    List RemoteCommand × StateResult :=
  ([.disableJob jobName], ⟨true, jobName, refetched.buildable.getD true⟩)

/-! ### Bulk enable (`enable_all_jobs`) -/

/-- One entry of the remote `get_all_jobs` listing, restricted to the fields read:
`fullname`, `name` and `color` (each read with `dict.get`, hence optional). -/
structure JobEntry where
  fullname : Option String
  name : Option String
  color : Option String
deriving DecidableEq

/-- `job.get("fullname", job.get("name", ""))`. -/
def entryFullname (j : JobEntry) : String :=
  match j.fullname with
  | some f => f
  | none => j.name.getD ""

/-- `job.get("color", "")`. -/
def entryColor (j : JobEntry) : String :=
  j.color.getD ""

/-- The disabled test of `enable_all_jobs`:
`job_color.endswith("_disabled") or job_color == "disabled"`. -/
def isDisabledColor (c : String) : Bool :=
  pyEndsWith c "_disabled" || c == "disabled"

/-- The folder-membership filter of `enable_all_jobs`, as written in the source.
Note `if folder:` — Python truthiness, so both `None` and the empty string take the
no-folder branch.  Otherwise the folder is normalised with `strip("/")`; with
`recursive` a job is included when its full name starts with `folder/` or equals the
folder; without it only direct children (no `/` in the remaining path) are included.
With no folder, `recursive` includes everything, otherwise only top-level names. -/
def jobSelected (folder : Option String) (recursive : Bool) (fullname : String) : Bool :=
  match folder with
  | some f =>
    if f = "" then
      if recursive then true else !(pyContainsChar fullname '/')
    else
      let nf := stripChar '/' f
      if recursive then
        pyStartsWith fullname (nf ++ "/") || fullname == nf
      else
        if pyStartsWith fullname (nf ++ "/") then
          !(pyContainsChar (fullname.drop (nf.length + 1)) '/')
        else false
  | none =>
    if recursive then true else !(pyContainsChar fullname '/')

/-- `enable_all_jobs`: filter the job listing by folder membership, then attempt
`enable_job` on exactly the selected jobs whose color signals disabled, returning the
count and the list of enabled job names.  Per-job enable failures are logged and
skipped in the source; the model assumes every attempted enable succeeds, so the
returned list is precisely the set of attempted jobs, in listing order. -/
def enable_all_jobs (folder : Option String) (recursive : Bool) (jobs : List JobEntry) :
    Nat × List String :=
  let jobsToProcess := jobs.filter (fun j => jobSelected folder recursive (entryFullname j))
  let enabledJobs :=
    (jobsToProcess.filter (fun j => isDisabledColor (entryColor j))).map entryFullname
  (enabledJobs.length, enabledJobs)

/-- The folder-filtering rule in the words of the spec (section 4.6/C6): normalise the
folder by stripping leading/trailing `/`; folder given with `recursive=True` includes
names equal to the folder or starting with `folder/`; folder given with
`recursive=False` includes names starting with `folder/` with no further `/` after that
prefix; folder absent includes all names when recursive, else only names without `/`. -/
def specFolderSelect (folder : Option String) (recursive : Bool) (fullname : String) : Bool :=
  match folder with
  | some f =>
    let nf := stripChar '/' f
    if recursive then
      fullname == nf || pyStartsWith fullname (nf ++ "/")
    else
      pyStartsWith fullname (nf ++ "/") &&
        !(pyContainsChar (fullname.drop (nf.length + 1)) '/')
  | none => if recursive then true else !(pyContainsChar fullname '/')

/-- The spec's folder rule amended at the single point the code forces: a supplied
folder that is the empty string is treated like an absent folder (Python truthiness of
`if folder:`). -/
def specFolderSelectAmended (folder : Option String) (recursive : Bool)
    (fullname : String) : Bool :=
  match folder with
  | some f =>
    if f = "" then specFolderSelect none recursive fullname
    else specFolderSelect (some f) recursive fullname
  | none => specFolderSelect none recursive fullname

/-! ### Statement-support definitions -/

/-- The category assigned to one console line: the first category, in the priority
order of the pattern set, that contains a pattern matching the line (`none` when no
category matches).  Used to characterise the classifier's per-line behaviour. -/
def classifyLine (compiled : List (String × List (String → Bool))) (line : String) :
    Option String :=
  match compiled with
  | [] => none
  | (cat, pats) :: rest =>
    if anyMatches pats line then some cat else classifyLine rest line

/-- The error list described line-by-line: each line (numbered from `n`) contributes at
most one `ErrorMatch`, carrying its first matching category. -/
def classifiedErrors (compiled : List (String × List (String → Bool))) :
    Nat → List String → List ErrorMatch
  | _, [] => []
  | n, line :: rest =>
    (match classifyLine compiled line with
     | some c => [⟨n, line, c⟩]
     | none => []) ++ classifiedErrors compiled (n + 1) rest

/-- Whether an outcome of `get_job_console` is a raised `JenkinsBuildNotFoundError`. -/
def isBuildNotFoundOutcome (r : Except FacadeError String) : Bool :=
  match r with
  | .error (.jenkinsBuildNotFound _) => true
  | _ => false

/-- Whether an outcome of `get_build_errors` is a raised `JenkinsApiError`. -/
def isApiErrorResult (r : Except FacadeError ClassifyResult) : Bool :=
  match r with
  | .error (.jenkinsApiError _) => true
  | _ => false

/-- Whether no returned error entry carries the `custom` category (raised errors
vacuously satisfy this). -/
def noCustomCategory (r : Except FacadeError ClassifyResult) : Bool :=
  match r with
  | .ok c => c.errors.all (fun e => !(e.category == "custom"))
  | .error _ => true

/-- The literal job list of the spec's folder-filter scenario: `job2`,
`folder1/job4`, `folder1/sub/job5` and `folder2/job6` are disabled (via their
`color`), the others enabled. -/
def scenarioJobs : List JobEntry :=
  [⟨some "job1", none, some "blue"⟩,
   ⟨some "job2", none, some "red_disabled"⟩,
   ⟨some "folder1/job3", none, some "blue"⟩,
   ⟨some "folder1/job4", none, some "grey_disabled"⟩,
   ⟨some "folder1/sub/job5", none, some "disabled"⟩,
   ⟨some "folder2/job6", none, some "yellow_disabled"⟩]

/-! ### Helper lemmas -/

theorem charsStartWith_refl (l : List Char) : charsStartWith l l = true := by
  induction l with
  | nil => rfl
  | cons a t ih => simp [charsStartWith, ih]

theorem subOccurs_self (r : List Char) : subOccurs r r = true := by
  cases r with
  | nil => rfl
  | cons a t => simp [subOccurs, charsStartWith_refl]

theorem subOccurs_append_self (l r : List Char) : subOccurs (l ++ r) r = true := by
  induction l with
  | nil => simpa using subOccurs_self r
  | cons a t ih =>
    rw [List.cons_append, subOccurs]
    simp [ih]

theorem pyContainsStr_append_self (s r : String) : pyContainsStr (s ++ r) r = true := by
  simpa [pyContainsStr, String.data_append] using subOccurs_append_self s.data r.data

theorem recordLine_eq (compiled : List (String × List (String → Bool))) (n : Nat)
    (line : String) (es : List ErrorMatch) (sm : List (String × Nat)) :
    recordLine compiled n line (es, sm) =
      match classifyLine compiled line with
      | some c => (es ++ [⟨n, line, c⟩], bumpSummary sm c)
      | none => (es, sm) := by
  induction compiled with
  | nil => rfl
  | cons p rest ih =>
    obtain ⟨cat, pats⟩ := p
    by_cases h : anyMatches pats line = true
    · simp [recordLine, classifyLine, h]
    · simp only [recordLine, classifyLine, h]
      simpa using ih

theorem sumSummary_bump (sm : List (String × Nat)) (c : String) :
    sumSummary (bumpSummary sm c) = sumSummary sm + 1 := by
  induction sm with
  | nil => rfl
  | cons p rest ih =>
    obtain ⟨k, n⟩ := p
    by_cases h : k = c
    · simp [bumpSummary, h, sumSummary]
      omega
    · simp [bumpSummary, h, sumSummary, ih]
      omega

theorem lookupSummary_bump_self (sm : List (String × Nat)) (c : String) :
    lookupSummary (bumpSummary sm c) c = lookupSummary sm c + 1 := by
  induction sm with
  | nil => simp [bumpSummary, lookupSummary]
  | cons p rest ih =>
    obtain ⟨k, n⟩ := p
    by_cases h : k = c
    · simp [bumpSummary, h, lookupSummary]
    · simp [bumpSummary, h, lookupSummary, ih]

theorem lookupSummary_bump_ne (sm : List (String × Nat)) (c c' : String) (h : c' ≠ c) :
    lookupSummary (bumpSummary sm c) c' = lookupSummary sm c' := by
  have hcc : ¬ c = c' := fun hh => h hh.symm
  induction sm with
  | nil => simp [bumpSummary, lookupSummary, if_neg hcc]
  | cons p rest ih =>
    obtain ⟨k, n⟩ := p
    by_cases hk : k = c
    · subst hk
      simp [bumpSummary, lookupSummary, if_neg hcc]
    · simp [bumpSummary, hk, lookupSummary, ih]

theorem classifyGo_errors (compiled : List (String × List (String → Bool)))
    (lines : List String) :
    ∀ (n : Nat) (es : List ErrorMatch) (sm : List (String × Nat)),
      (classifyGo compiled n lines (es, sm)).1 = es ++ classifiedErrors compiled n lines := by
  induction lines with
  | nil => intro n es sm; simp [classifyGo, classifiedErrors]
  | cons line rest ih =>
    intro n es sm
    rw [classifyGo, recordLine_eq, classifiedErrors]
    cases h : classifyLine compiled line with
    | none => simp [ih]
    | some c => simp [ih]

theorem classifyGo_invariant (compiled : List (String × List (String → Bool)))
    (lines : List String) :
    ∀ (n : Nat) (es : List ErrorMatch) (sm : List (String × Nat)),
      sumSummary sm = es.length →
      (∀ cat, lookupSummary sm cat = (es.filter (fun e => e.category == cat)).length) →
      sumSummary (classifyGo compiled n lines (es, sm)).2 =
          (classifyGo compiled n lines (es, sm)).1.length ∧
        ∀ cat, lookupSummary (classifyGo compiled n lines (es, sm)).2 cat =
          ((classifyGo compiled n lines (es, sm)).1.filter
            (fun e => e.category == cat)).length := by
  induction lines with
  | nil => intro n es sm h1 h2; exact ⟨h1, h2⟩
  | cons line rest ih =>
    intro n es sm h1 h2
    rw [classifyGo, recordLine_eq]
    cases h : classifyLine compiled line with
    | none => simpa using ih (n + 1) es sm h1 h2
    | some c =>
      refine ih (n + 1) (es ++ [⟨n, line, c⟩]) (bumpSummary sm c) ?_ ?_
      · rw [sumSummary_bump, h1]
        simp
      · intro cat
        by_cases hc : cat = c
        · subst hc
          rw [lookupSummary_bump_self, h2]
          simp [ErrorMatch.category]
        · have hc' : ¬ c = cat := fun hh => hc hh.symm
          rw [lookupSummary_bump_ne sm c cat hc, h2]
          simp [ErrorMatch.category, hc']

theorem runClassifier_errors (compiled : List (String × List (String → Bool)))
    (lines : List String) :
    (runClassifier compiled lines).errors = classifiedErrors compiled 1 lines := by
  simpa [runClassifier] using classifyGo_errors compiled lines 1 [] []

theorem runClassifier_invariant (compiled : List (String × List (String → Bool)))
    (lines : List String) :
    sumSummary (runClassifier compiled lines).summary =
        (runClassifier compiled lines).errors.length ∧
      ∀ cat, lookupSummary (runClassifier compiled lines).summary cat =
        ((runClassifier compiled lines).errors.filter (fun e => e.category == cat)).length := by
  simpa [runClassifier] using
    classifyGo_invariant compiled lines 1 [] [] rfl (fun cat => rfl)

theorem classifyLine_mem (compiled : List (String × List (String → Bool)))
    (line : String) (c : String) (h : classifyLine compiled line = some c) :
    c ∈ compiled.map Prod.fst := by
  induction compiled with
  | nil => simp [classifyLine] at h
  | cons p rest ih =>
    obtain ⟨cat, pats⟩ := p
    by_cases hm : anyMatches pats line = true
    · rw [classifyLine, if_pos hm] at h
      injection h with h
      simp [h]
    · rw [classifyLine, if_neg hm] at h
      simpa using Or.inr (ih h)

theorem classifiedErrors_category_mem (compiled : List (String × List (String → Bool)))
    (lines : List String) :
    ∀ (n : Nat) (e : ErrorMatch), e ∈ classifiedErrors compiled n lines →
      e.category ∈ compiled.map Prod.fst := by
  induction lines with
  | nil => intro n e he; simp [classifiedErrors] at he
  | cons line rest ih =>
    intro n e he
    rw [classifiedErrors] at he
    rcases List.mem_append.mp he with h | h
    · cases hc : classifyLine compiled line with
      | none => rw [hc] at h; simp at h
      | some c =>
        rw [hc] at h
        simp at h
        subst h
        exact classifyLine_mem compiled line c hc
    · exact ih (n + 1) e h

/-! ### Claim theorems -/

/-- C1: for every console text and every pattern set, `get_build_errors` satisfies the
classifier invariant: the summary counts sum to the number of error entries, each
category's summary count equals the number of error entries with that category, and
each console line contributes at most one `ErrorMatch`, recorded under the first
category (in the pattern set's priority order) containing a matching pattern. -/
theorem get_build_errors_classifier_invariant (jobName console : String)
    (patterns : Option (List String)) (compile : String → Option (String → Bool))
    (r : ClassifyResult)
    (h : get_build_errors jobName console patterns compile = .ok r) :
    sumSummary r.summary = r.errors.length ∧
      (∀ cat, lookupSummary r.summary cat =
        (r.errors.filter (fun e => e.category == cat)).length) ∧
      r.errors = classifiedErrors
        (compilePatternDict compile (choosePatternDict patterns)) 1 (pySplitlines console) := by
  unfold get_build_errors at h
  split_ifs at h
  simp only [Except.ok.injEq] at h
  subst h
  refine ⟨(runClassifier_invariant _ _).1, (runClassifier_invariant _ _).2, ?_⟩
  exact runClassifier_errors _ _

/-- Witness for C1 at a concrete console and pattern oracle. -/
theorem get_build_errors_classifier_invariant_witness :
    get_build_errors "j" "an error" none
        (fun _ => some (fun line => pyContainsStr line "error")) =
      .ok ⟨[⟨1, "an error", "error"⟩], [("error", 1)]⟩ ∧
    sumSummary [("error", 1)] = [(⟨1, "an error", "error"⟩ : ErrorMatch)].length ∧
    lookupSummary [("error", 1)] "error" =
      (([⟨1, "an error", "error"⟩] : List ErrorMatch).filter
        (fun e => e.category == "error")).length ∧
    ([⟨1, "an error", "error"⟩] : List ErrorMatch) = classifiedErrors
      (compilePatternDict (fun _ => some (fun line => pyContainsStr line "error"))
        (choosePatternDict none)) 1 (pySplitlines "an error") := by
  have h := get_build_errors_classifier_invariant "j" "an error" none
    (fun _ => some (fun line => pyContainsStr line "error"))
    ⟨[⟨1, "an error", "error"⟩], [("error", 1)]⟩ rfl
  exact ⟨rfl, h.1, h.2.1 "error", h.2.2⟩

/-- C10: `get_build_errors` with `patterns=[]` behaves identically to `patterns`
absent — the built-in default pattern set (categories `error`, `exception`, `failure`,
`jenkins` in that priority order) is used and no `custom` category appears in the
result; only a non-empty patterns list goes under the single `custom` category. -/
theorem get_build_errors_empty_patterns_default (jobName console : String)
    (compile : String → Option (String → Bool)) :
    get_build_errors jobName console (some []) compile =
        get_build_errors jobName console none compile ∧
      choosePatternDict (some []) = DEFAULT_ERROR_PATTERNS ∧
      choosePatternDict none = DEFAULT_ERROR_PATTERNS ∧
      (∀ (p : String) (ps : List String),
        choosePatternDict (some (p :: ps)) = [("custom", p :: ps)]) ∧
      DEFAULT_ERROR_PATTERNS.map Prod.fst = ["error", "exception", "failure", "jenkins"] ∧
      noCustomCategory (get_build_errors jobName console (some []) compile) = true := by
  refine ⟨rfl, rfl, rfl, fun p ps => rfl, rfl, ?_⟩
  unfold get_build_errors
  split_ifs with h1 h2
  · rfl
  · rfl
  · simp only [noCustomCategory, List.all_eq_true]
    intro e he
    rw [runClassifier_errors] at he
    have hcat := classifiedErrors_category_mem _ _ 1 e he
    have hkeys : (compilePatternDict compile (choosePatternDict (some []))).map Prod.fst =
        ["error", "exception", "failure", "jenkins"] := by
      simp [compilePatternDict, choosePatternDict, DEFAULT_ERROR_PATTERNS]
    rw [hkeys] at hcat
    simp only [List.mem_cons, List.not_mem_nil, or_false] at hcat
    rcases hcat with h | h | h | h <;> simp [h]

/-- C9 counterexample: a console that both starts with the `No builds found for job`
sentinel and contains `Jenkins error` is converted to `JenkinsBuildNotFoundError`, not
to `JenkinsApiError` as the claim's containment clause demands. -/
theorem get_build_errors_sentinel_counterexample :
    pyContainsStr "No builds found for job j: Jenkins error" "Jenkins error" = true ∧
      get_build_errors "j" "No builds found for job j: Jenkins error" none (fun _ => none) =
        .error (.jenkinsBuildNotFound "No builds found for job j: Jenkins error") ∧
      isApiErrorResult (get_build_errors "j" "No builds found for job j: Jenkins error"
        none (fun _ => none)) = false :=
  ⟨by decide, rfl, rfl⟩

/-- C9 (amended): if the fetched console text starts with `No builds found for job`,
`get_build_errors` raises `JenkinsBuildNotFoundError` carrying that text; otherwise,
if the text contains `Jenkins error` or `Unexpected error` anywhere, it raises
`JenkinsApiError` carrying that text — in both cases classification is not
attempted. -/
theorem get_build_errors_sentinel_conversion (jobName console : String)
    (patterns : Option (List String)) (compile : String → Option (String → Bool)) :
    (pyStartsWith console "No builds found for job" = true →
      get_build_errors jobName console patterns compile =
        .error (.jenkinsBuildNotFound console)) ∧
    (pyStartsWith console "No builds found for job" = false →
      (pyContainsStr console "Jenkins error" || pyContainsStr console "Unexpected error") =
        true →
      get_build_errors jobName console patterns compile =
        .error (.jenkinsApiError console)) := by
  constructor
  · intro h
    simp [get_build_errors, h]
  · intro h1 h2
    simp [get_build_errors, h1, h2]

/-- Witness for the amended C9 at two concrete consoles, one per sentinel. -/
theorem get_build_errors_sentinel_conversion_witness :
    pyStartsWith "No builds found for job x" "No builds found for job" = true ∧
      get_build_errors "j" "No builds found for job x" none (fun _ => none) =
        .error (.jenkinsBuildNotFound "No builds found for job x") ∧
      pyStartsWith "boom Unexpected error" "No builds found for job" = false ∧
      (pyContainsStr "boom Unexpected error" "Jenkins error" ||
        pyContainsStr "boom Unexpected error" "Unexpected error") = true ∧
      get_build_errors "j" "boom Unexpected error" none (fun _ => none) =
        .error (.jenkinsApiError "boom Unexpected error") :=
  ⟨by decide,
   (get_build_errors_sentinel_conversion "j" "No builds found for job x" none
     (fun _ => none)).1 (by decide),
   by decide, by decide,
   (get_build_errors_sentinel_conversion "j" "boom Unexpected error" none
     (fun _ => none)).2 (by decide) (by decide)⟩

/-- C2: for every console and every `from_line >= 0`, `monitor_build` returns
`next_line = total_lines` and output equal to the lines `[from_line, total_lines)`
joined with newlines (empty when `from_line >= total_lines`); for two consecutive
calls where the second console extends the first by `rest`, the second call (at
`from_line` equal to the first call's `next_line`) returns exactly `rest`, and the
concatenation of the two outputs is the contiguous slice of the second snapshot from
the (capped) initial cursor — no line is delivered twice and none is skipped. -/
theorem monitor_build_cursor_pagination (jobName : String) (b1 b2 : Nat)
    (ji1 ji2 : JobInfo) (info1 info2 : BuildInfo) (c1 c2 : String) (k : Int)
    (hk : 0 ≤ k) (rest : List String)
    (hpre : pySplitlines c2 = pySplitlines c1 ++ rest) :
    monitor_build jobName (some b1) ji1 info1 c1 k =
        .ok ⟨jobName, b1, String.intercalate "\n" ((pySplitlines c1).drop k.toNat),
             (pySplitlines c1).length, info1.building, info1.result⟩ ∧
      monitor_build jobName (some b2) ji2 info2 c2 ((pySplitlines c1).length : Int) =
        .ok ⟨jobName, b2, String.intercalate "\n" rest,
             (pySplitlines c2).length, info2.building, info2.result⟩ ∧
      (pySplitlines c1).drop k.toNat ++ rest =
        (pySplitlines c2).drop (min k.toNat (pySplitlines c1).length) ∧
      (((pySplitlines c1).length : Int) ≤ k →
        String.intercalate "\n" ((pySplitlines c1).drop k.toNat) = "") := by
  refine ⟨?_, ?_, ?_, ?_⟩
  · rw [monitor_build, if_neg (by omega), resolveBuildNumber]
    dsimp only
    by_cases hbig : ((pySplitlines c1).length : Int) ≤ k
    · rw [if_pos hbig, List.drop_eq_nil_of_le (by omega)]
    · rw [if_neg hbig]
  · rw [monitor_build, if_neg (by omega), resolveBuildNumber]
    dsimp only
    by_cases hbig : ((pySplitlines c2).length : Int) ≤ ((pySplitlines c1).length : Int)
    · have hlen : (pySplitlines c2).length = (pySplitlines c1).length + rest.length := by
        rw [hpre, List.length_append]
      have hrest : rest = [] := by
        have : rest.length = 0 := by omega
        exact List.length_eq_zero.mp this
      rw [if_pos hbig, hrest]
    · rw [if_neg hbig]
      have ht : ((pySplitlines c1).length : Int).toNat = (pySplitlines c1).length := by omega
      rw [ht, hpre, List.drop_left]
  · by_cases hle : k.toNat ≤ (pySplitlines c1).length
    · rw [Nat.min_eq_left hle, hpre, List.drop_append_eq_append_drop,
        Nat.sub_eq_zero_of_le hle, List.drop_zero]
    · rw [Nat.min_eq_right (by omega), hpre, List.drop_left,
        List.drop_eq_nil_of_le (by omega), List.nil_append]
  · intro hbig
    rw [List.drop_eq_nil_of_le (by omega)]
    rfl

/-- Witness for C2: two consecutive monitor calls over a console that grows from
three to four lines. -/
theorem monitor_build_cursor_pagination_witness :
    (0 : Int) ≤ 1 ∧
      pySplitlines "a\nb\nc\nd" = pySplitlines "a\nb\nc" ++ ["d"] ∧
      monitor_build "j" (some 1) ⟨none, none⟩ ⟨none, true, 0, ""⟩ "a\nb\nc" 1 =
        .ok ⟨"j", 1, "b\nc", 3, true, none⟩ ∧
      monitor_build "j" (some 1) ⟨none, none⟩ ⟨none, true, 0, ""⟩ "a\nb\nc\nd" 3 =
        .ok ⟨"j", 1, "d", 4, true, none⟩ ∧
      ["b", "c"] ++ ["d"] = (pySplitlines "a\nb\nc\nd").drop 1 := by
  have h := monitor_build_cursor_pagination "j" 1 1 ⟨none, none⟩ ⟨none, none⟩
    ⟨none, true, 0, ""⟩ ⟨none, true, 0, ""⟩ "a\nb\nc" "a\nb\nc\nd" 1 (by decide)
    ["d"] (by decide)
  exact ⟨by decide, by decide, h.1.trans rfl, h.2.1.trans rfl, by decide⟩

/-- C3 counterexample: with no builds for the job, `get_job_console` returns the
error-message string as its ordinary return value rather than raising
`JenkinsBuildNotFoundError`. -/
theorem get_job_console_no_builds_counterexample :
    get_job_console "j" none none none ⟨none, none⟩ "" =
        .ok "No builds found for job \x27j\x27" ∧
      isBuildNotFoundOutcome
        (get_job_console "j" none none none ⟨none, none⟩ "") = false :=
  ⟨rfl, rfl⟩

/-- C3 (amended): the shared resolution step raises a typed
`JenkinsBuildNotFoundError` when no builds exist, but `get_job_console` does not use
it for this case — it returns the message `No builds found for job '<job>'` as an
ordinary string result, not a typed error. -/
theorem get_job_console_no_builds_returns_string (jobName console : String)
    (buildable : Option Bool) :
    get_job_console jobName none none none ⟨none, buildable⟩ console =
        .ok ("No builds found for job \x27" ++ jobName ++ "\x27") ∧
      isBuildNotFoundOutcome
        (get_job_console jobName none none none ⟨none, buildable⟩ console) = false ∧
      resolveBuildNumber jobName none ⟨none, buildable⟩ =
        .error (.jenkinsBuildNotFound ("No builds found for job \x27" ++ jobName ++ "\x27")) :=
  ⟨rfl, rfl, rfl⟩

/-- C4: `tail=N` alone returns the last `min(N, L)` lines (a suffix of the split
console), `head=N` alone the first `min(N, L)` lines (a prefix), with no error on
over-large `N`; supplying both `tail` and `head` fails with `ValueError` regardless of
all other inputs, and a non-positive supplied `tail` or `head` fails with `ValueError`
independently of the remote inputs. -/
theorem get_job_console_windowing (jobName : String) (b : Nat) (ji : JobInfo)
    (console : String) (N : Int) (hN : 0 < N) :
    (get_job_console jobName (some b) (some N) none ji console =
        .ok (String.intercalate "\n"
          ((pySplitlines console).drop ((pySplitlines console).length - N.toNat))) ∧
      ((pySplitlines console).drop ((pySplitlines console).length - N.toNat)).length =
        min N.toNat (pySplitlines console).length ∧
      (pySplitlines console).take ((pySplitlines console).length - N.toNat) ++
          (pySplitlines console).drop ((pySplitlines console).length - N.toNat) =
        pySplitlines console) ∧
    (get_job_console jobName (some b) none (some N) ji console =
        .ok (String.intercalate "\n" ((pySplitlines console).take N.toNat)) ∧
      ((pySplitlines console).take N.toNat).length =
        min N.toNat (pySplitlines console).length ∧
      (pySplitlines console).take N.toNat ++ (pySplitlines console).drop N.toNat =
        pySplitlines console) ∧
    (∀ (bn : Option Nat) (t h : Int) (ji2 : JobInfo) (c2 : String),
      get_job_console jobName bn (some t) (some h) ji2 c2 =
        .error (.valueError "tail and head are mutually exclusive; provide only one")) ∧
    (∀ (bn : Option Nat) (t : Int) (ji2 : JobInfo) (c2 : String), t ≤ 0 →
      get_job_console jobName bn (some t) none ji2 c2 =
        .error (.valueError "tail must be a positive integer")) ∧
    (∀ (bn : Option Nat) (h : Int) (ji2 : JobInfo) (c2 : String), h ≤ 0 →
      get_job_console jobName bn none (some h) ji2 c2 =
        .error (.valueError "head must be a positive integer")) := by
  have hN' : ¬ N ≤ 0 := by omega
  refine ⟨⟨?_, ?_, List.take_append_drop _ _⟩, ⟨?_, ?_, List.take_append_drop _ _⟩,
    fun bn t h ji2 c2 => rfl, ?_, ?_⟩
  · simp [get_job_console, hN', applyWindow]
  · rw [List.length_drop]
    omega
  · simp [get_job_console, hN', applyWindow]
  · rw [List.length_take]
  · intro bn t ji2 c2 ht
    simp [get_job_console, ht]
  · intro bn h ji2 c2 hh
    simp [get_job_console, hh]

/-- Witness for C4 at a three-line console with `N = 2`. -/
theorem get_job_console_windowing_witness :
    (0 : Int) < 2 ∧
      get_job_console "j" (some 1) (some 2) none ⟨none, none⟩ "a\nb\nc" = .ok "b\nc" ∧
      get_job_console "j" (some 1) none (some 2) ⟨none, none⟩ "a\nb\nc" = .ok "a\nb" ∧
      get_job_console "j" (some 1) (some 7) (some 9) ⟨none, none⟩ "x" =
        .error (.valueError "tail and head are mutually exclusive; provide only one") ∧
      get_job_console "j" (some 1) (some 0) none ⟨none, none⟩ "x" =
        .error (.valueError "tail must be a positive integer") ∧
      get_job_console "j" (some 1) none (some (-3)) ⟨none, none⟩ "x" =
        .error (.valueError "head must be a positive integer") := by
  have h := get_job_console_windowing "j" 1 ⟨none, none⟩ "a\nb\nc" 2 (by decide)
  exact ⟨by decide, h.1.1.trans rfl, h.2.1.1.trans rfl,
    h.2.2.1 (some 1) 7 9 ⟨none, none⟩ "x",
    h.2.2.2.1 (some 1) 0 ⟨none, none⟩ "x" (by decide),
    h.2.2.2.2 (some 1) (-3) ⟨none, none⟩ "x" (by decide)⟩

/-- C5: `wait_for_build` fails with `ValueError` on non-positive `timeout` or
`poll_interval`; with `poll_interval` exceeding `timeout` it behaves identically to
`poll_interval = timeout` (the clamp), and with positive parameters the first status
check always happens before the deadline (a terminal first status is returned). -/
theorem wait_for_build_validation_and_clamp (jobName : String) (bn : Option Nat)
    (ji : JobInfo) (t p : Int) :
    (∀ statuses, t ≤ 0 → wait_for_build jobName bn t p ji statuses =
        .raised (.valueError "timeout must be positive (> 0)")) ∧
    (∀ statuses, 0 < t → p ≤ 0 → wait_for_build jobName bn t p ji statuses =
        .raised (.valueError "poll_interval must be positive (> 0)")) ∧
    (0 < t → t < p → ∀ statuses, wait_for_build jobName bn t p ji statuses =
        wait_for_build jobName bn t t ji statuses) ∧
    (0 < t → 0 < p →
      ∀ (b : Nat) (r u : String) (d : Int) (bu : Bool) (rest : List BuildInfo),
        wait_for_build jobName (some b) t p ji (⟨some r, bu, d, u⟩ :: rest) =
          .completed b r d u) := by
  refine ⟨?_, ?_, ?_, ?_⟩
  · intro statuses ht
    rw [wait_for_build, if_pos ht]
  · intro statuses ht hp
    rw [wait_for_build, if_neg (by omega), if_pos hp]
  · intro ht hp statuses
    rw [wait_for_build, if_neg (show ¬ t ≤ 0 by omega), if_neg (show ¬ p ≤ 0 by omega)]
    dsimp only
    rw [if_pos hp, wait_for_build, if_neg (show ¬ t ≤ 0 by omega),
      if_neg (show ¬ t ≤ 0 by omega)]
    dsimp only
    rw [if_neg (lt_irrefl t)]
  · intro ht hp b r u d bu rest
    rw [wait_for_build, if_neg (by omega), if_neg (by omega), resolveBuildNumber]
    dsimp only
    rw [waitLoop]
    have hpoll : ¬ t ≤ ((0 : Nat) : Int) * (if t < p then t else p) := by
      by_cases hc : t < p <;> simp [hc] <;> omega
    rw [if_neg hpoll]

/-- Witness for C5: validation error at `timeout = 0`, and the clamp equivalence plus
the guaranteed first status check at `timeout = 10`, `poll_interval = 30`. -/
theorem wait_for_build_validation_and_clamp_witness :
    (0 : Int) < 10 ∧ (10 : Int) < 30 ∧
      wait_for_build "j" (some 1) 0 30 ⟨none, none⟩ [] =
        .raised (.valueError "timeout must be positive (> 0)") ∧
      wait_for_build "j" (some 1) 10 30 ⟨none, none⟩ [⟨none, true, 0, ""⟩] =
        wait_for_build "j" (some 1) 10 10 ⟨none, none⟩ [⟨none, true, 0, ""⟩] ∧
      wait_for_build "j" (some 1) 10 30 ⟨none, none⟩ [⟨some "SUCCESS", false, 5, "u"⟩] =
        .completed 1 "SUCCESS" 5 "u" := by
  refine ⟨by decide, by decide,
    (wait_for_build_validation_and_clamp "j" (some 1) ⟨none, none⟩ 0 30).1 [] (by decide),
    (wait_for_build_validation_and_clamp "j" (some 1) ⟨none, none⟩ 10 30).2.2.1
      (by decide) (by decide) [⟨none, true, 0, ""⟩],
    (wait_for_build_validation_and_clamp "j" (some 1) ⟨none, none⟩ 10 30).2.2.2
      (by decide) (by decide) 1 "SUCCESS" "u" 5 false []⟩

/-- C6 counterexample: with a supplied empty folder string and `recursive=True`, the
code treats the folder as absent (Python truthiness) and enables the top-level
disabled job `job1`, while the claim's folder rule (folder given, recursive) excludes
`job1` — it neither equals the normalised folder `""` nor starts with `"/"`. -/
theorem enable_all_jobs_folder_rule_counterexample :
    enable_all_jobs (some "") true [⟨some "job1", none, some "red_disabled"⟩] =
        (1, ["job1"]) ∧
      specFolderSelect (some "") true "job1" = false := by
  decide

/-- C6 (amended): `enable_all_jobs` selects jobs exactly per the spec's folder rule
amended at one point — a supplied empty folder string is treated as an absent folder —
and attempts enable exactly on the selected jobs whose color signals disabled; the
three literal scenarios of the spec hold as stated. -/
theorem enable_all_jobs_folder_rule (folder : Option String) (recursive : Bool)
    (jobs : List JobEntry) :
    (∀ fullname, jobSelected folder recursive fullname =
        specFolderSelectAmended folder recursive fullname) ∧
      enable_all_jobs folder recursive jobs =
        ((((jobs.filter
              (fun j => specFolderSelectAmended folder recursive (entryFullname j))).filter
            (fun j => isDisabledColor (entryColor j))).map entryFullname).length,
         ((jobs.filter
              (fun j => specFolderSelectAmended folder recursive (entryFullname j))).filter
            (fun j => isDisabledColor (entryColor j))).map entryFullname) ∧
      enable_all_jobs none true scenarioJobs =
        (4, ["job2", "folder1/job4", "folder1/sub/job5", "folder2/job6"]) ∧
      enable_all_jobs (some "folder1") false scenarioJobs = (1, ["folder1/job4"]) ∧
      enable_all_jobs (some "folder1") true scenarioJobs =
        (2, ["folder1/job4", "folder1/sub/job5"]) := by
  have hsel : ∀ fullname, jobSelected folder recursive fullname =
      specFolderSelectAmended folder recursive fullname := by
    intro fullname
    cases folder with
    | none => cases recursive <;> rfl
    | some f =>
      by_cases hf : f = ""
      · subst hf
        simp [jobSelected, specFolderSelectAmended, specFolderSelect]
      · simp only [jobSelected, specFolderSelectAmended, specFolderSelect, if_neg hf]
        cases recursive with
        | false =>
          cases hs : pyStartsWith fullname (stripChar '/' f ++ "/") <;> simp [hs]
        | true => exact Bool.or_comm _ _
  have hfilter : jobs.filter (fun j => jobSelected folder recursive (entryFullname j)) =
      jobs.filter (fun j => specFolderSelectAmended folder recursive (entryFullname j)) :=
    List.filter_congr (fun j _ => hsel (entryFullname j))
  refine ⟨hsel, ?_, by decide, by decide, by decide⟩
  simp only [enable_all_jobs, hfilter]

/-- C7: when the fetched build status already carries a result, `cancel_build` issues
no abort command and returns `success=False` with the message
`Build already completed with result: <result>` (containing the result verbatim);
only when the status has no result does it issue `stop_build` and return
`success=True`. -/
theorem cancel_build_terminal_no_abort (jobName : String) (b : Nat) (ji : JobInfo)
    (info : BuildInfo) :
    (∀ r, info.result = some r →
      cancel_build jobName (some b) ji info =
          .ok ([], ⟨false, jobName, b, "Build already completed with result: " ++ r⟩) ∧
        pyContainsStr ("Build already completed with result: " ++ r) r = true) ∧
    (info.result = none →
      cancel_build jobName (some b) ji info =
        .ok ([.stopBuild jobName b],
          ⟨true, jobName, b, "Build cancelled successfully"⟩)) := by
  constructor
  · intro r hr
    refine ⟨?_, pyContainsStr_append_self _ r⟩
    rw [cancel_build, resolveBuildNumber]
    dsimp only
    rw [hr]
  · intro hr
    rw [cancel_build, resolveBuildNumber]
    dsimp only
    rw [hr]

/-- Witness for C7 at a terminal and a running build. -/
theorem cancel_build_terminal_no_abort_witness :
    cancel_build "j" (some 3) ⟨none, none⟩ ⟨some "FAILURE", false, 0, ""⟩ =
        .ok ([], ⟨false, "j", 3, "Build already completed with result: FAILURE"⟩) ∧
      pyContainsStr "Build already completed with result: FAILURE" "FAILURE" = true ∧
      cancel_build "j" (some 3) ⟨none, none⟩ ⟨none, true, 0, ""⟩ =
        .ok ([.stopBuild "j" 3], ⟨true, "j", 3, "Build cancelled successfully"⟩) := by
  have h := cancel_build_terminal_no_abort "j" 3 ⟨none, none⟩ ⟨some "FAILURE", false, 0, ""⟩
  have h2 := cancel_build_terminal_no_abort "j" 3 ⟨none, none⟩ ⟨none, true, 0, ""⟩
  exact ⟨(h.1 "FAILURE" rfl).1, (h.1 "FAILURE" rfl).2.trans rfl, h2.2 rfl⟩

/-- C8: after issuing the enable (resp. disable) command, `enable_job_state`
(resp. `disable_job_state`) reports the re-fetched metadata's observed `buildable`
flag as `enabled`; when the `buildable` field is missing, enable reports
`enabled=False` and disable reports `enabled=True`. -/
theorem job_state_reports_observed_buildable (jobName : String) (refetched : JobInfo) :
    enable_job_state jobName refetched =
        ([.enableJob jobName], ⟨true, jobName, refetched.buildable.getD false⟩) ∧
      disable_job_state jobName refetched =
        ([.disableJob jobName], ⟨true, jobName, refetched.buildable.getD true⟩) ∧
      (refetched.buildable = none →
        (enable_job_state jobName refetched).2.enabled = false ∧
          (disable_job_state jobName refetched).2.enabled = true) ∧
      (∀ b, refetched.buildable = some b →
        (enable_job_state jobName refetched).2.enabled = b ∧
          (disable_job_state jobName refetched).2.enabled = b) := by
  refine ⟨rfl, rfl, ?_, ?_⟩
  · intro h
    simp [enable_job_state, disable_job_state, h]
  · intro b h
    simp [enable_job_state, disable_job_state, h]

/-- Witness for C8 with the `buildable` field absent and present. -/
theorem job_state_reports_observed_buildable_witness :
    (enable_job_state "j" ⟨none, none⟩).2.enabled = false ∧
      (disable_job_state "j" ⟨none, none⟩).2.enabled = true ∧
      (enable_job_state "j" ⟨none, some true⟩).2.enabled = true ∧
      (disable_job_state "j" ⟨none, some false⟩).2.enabled = false := by
  have h1 := (job_state_reports_observed_buildable "j" ⟨none, none⟩).2.2.1 rfl
  have h2 := (job_state_reports_observed_buildable "j" ⟨none, some true⟩).2.2.2 true rfl
  have h3 := (job_state_reports_observed_buildable "j" ⟨none, some false⟩).2.2.2 false rfl
  exact ⟨h1.1, h1.2, h2.1, h3.2⟩

end JenkinsApi
